import Mathlib

/-!
Verification of the `threejs-server` example view of this repository.

The development shallowly embeds the two source files:
* `src/threejs-app.tsx` — the render fallback layer (`height`, `code`,
  `isStreaming`), the visibility-aware animation controller
  (`createAnimationController`), the scene-execution effect and the
  fullscreen toggle;
* `src/mcp-app-wrapper.tsx` — the streaming tool-input reducer
  (`ontoolinput` / `ontoolinputpartial` / `ontoolresult` /
  `onhostcontextchanged` handlers) and the wrapper's render.

External browser and SDK primitives (`requestAnimationFrame`,
`cancelAnimationFrame`, the MCP bridge, Three.js) are modelled as explicit
state: the frame-scheduling primitive hands out fresh consecutive ids and
records every request it receives in order, and `cancelAnimationFrame`
records the cancelled id.  Promise rejection and `try`/`catch` are modelled
with `Except`.
-/

-- =============================================================================
-- Tool input and the render fallback layer (threejs-app.tsx)
-- =============================================================================

/-- The `ThreeJSToolInput` interface of `threejs-app.tsx`: both fields are
optional (`code?: string`, `height?: number`). -/
structure ToolInput where
  code : Option String
  height : Option Nat
  deriving DecidableEq

/-- The `DEFAULT_THREEJS_CODE` template literal of `threejs-app.tsx`
(braces of the JavaScript text written with their character codes). -/
def DEFAULT_THREEJS_CODE : String :=
  "const scene = new THREE.Scene();\nconst camera = new THREE.PerspectiveCamera(75, width / height, 0.1, 1000);\nconst renderer = new THREE.WebGLRenderer(\x7b canvas, antialias: true, alpha: true \x7d);\nrenderer.setSize(width, height);\n// Transparent background - scene composites over host UI\nrenderer.setClearColor(0x000000, 0);\n\nconst cube = new THREE.Mesh(\n  new THREE.BoxGeometry(1, 1, 1),\n  new THREE.MeshStandardMaterial(\x7b color: 0x00ff88 \x7d)\n);\n// Start with an isometric-ish rotation to show 3 faces\ncube.rotation.x = 0.5;\ncube.rotation.y = 0.7;\nscene.add(cube);\n\n// Better lighting: key light + fill light + ambient\nconst keyLight = new THREE.DirectionalLight(0xffffff, 1.2);\nkeyLight.position.set(1, 1, 2);\nscene.add(keyLight);\nconst fillLight = new THREE.DirectionalLight(0x8888ff, 0.4);\nfillLight.position.set(-1, 0, -1);\nscene.add(fillLight);\nscene.add(new THREE.AmbientLight(0x404040, 0.5));\n\ncamera.position.z = 3;\n\nfunction animate() \x7b\n  requestAnimationFrame(animate);\n  cube.rotation.x += 0.01;\n  cube.rotation.y += 0.01;\n  renderer.render(scene, camera);\n\x7d\nanimate();"

/-- `const height = toolInputs?.height ?? toolInputsPartial?.height ?? 400;`
(`threejs-app.tsx:213`).  `?.` yields `undefined` on a `null` receiver and
`??` skips `undefined`, hence the nested `Option` matches. -/
def renderHeight (ti tip : Option ToolInput) : Nat :=
  match ti.bind ToolInput.height with
  | some h => h
  | none =>
    match tip.bind ToolInput.height with
    | some h => h
    | none => 400

/-- `const code = toolInputs?.code || DEFAULT_THREEJS_CODE;`
(`threejs-app.tsx:214`).  JavaScript `||` takes its right operand when the
left is falsy, i.e. `undefined` (input or field absent) or the empty
string. -/
def renderCode (ti : Option ToolInput) : String :=
  match ti.bind ToolInput.code with
  | some c => if c = "" then DEFAULT_THREEJS_CODE else c
  | none => DEFAULT_THREEJS_CODE

/-- `const isStreaming = !toolInputs && !!toolInputsPartial;`
(`threejs-app.tsx:216`). -/
def isStreaming (ti tip : Option ToolInput) : Bool :=
  ti.isNone && tip.isSome

/-- What `ThreeJSApp` returns (`threejs-app.tsx:295-345`): either the
`LoadingShimmer` (with the fallback height and
`const partialCode = toolInputsPartial?.code`), or the container holding the
canvas (with the computed height and code), the error overlay when the error
state is set, and the fullscreen button. -/
inductive Rendered where
  | shimmer (height : Nat) (codePart : Option String)
  | canvas (height : Nat) (code : String) (errorOverlay : Option String)
  deriving DecidableEq

/-- The branch `if (isStreaming || !code) return <LoadingShimmer .../>` and
the main canvas return of `ThreeJSApp` (`threejs-app.tsx:295-345`), as a
function of the two inputs and the current error state. -/
def render (ti tip : Option ToolInput) (er : Option String) : Rendered :=
  if isStreaming ti tip || renderCode ti = "" then
    Rendered.shimmer (renderHeight ti tip) (tip.bind ToolInput.code)
  else
    Rendered.canvas (renderHeight ti tip) (renderCode ti) er

/-- The code text a given render shows: the streamed preview inside the
shimmer, or the code the canvas branch executes. -/
def displayedCode : Rendered → Option String
  | Rendered.shimmer _ c => c
  | Rendered.canvas _ c _ => some c

-- =============================================================================
-- Visibility-aware animation controller (threejs-app.tsx:130-164)
-- =============================================================================

/-- Combined state of one `createAnimationController` closure and of the
browser's frame-scheduling primitive.  `isVisible`, `pendingCallbacks` and
`rafIds` are the closure's three variables; `nextId` / `scheduled` /
`cancelled` model `requestAnimationFrame` (fresh id per request, requests
recorded in order) and `cancelAnimationFrame`. -/
structure Sys (Cb : Type) where
  isVisible : Bool
  pendingCallbacks : List Cb
  rafIds : List Nat
  nextId : Nat
  scheduled : List (Nat × Cb)
  cancelled : List Nat

/-- A fresh controller: `isVisible = true`, both lists empty, and a fresh
environment for the frame-scheduling primitive. -/
def initSys (Cb : Type) : Sys Cb :=
  { isVisible := true, pendingCallbacks := [], rafIds := [],
    nextId := 0, scheduled := [], cancelled := [] }

/-- `visibilityAwareRAF` (`threejs-app.tsx:135-145`): when visible, forward
the callback to `requestAnimationFrame`, record the returned id in `rafIds`
and return it; otherwise push the callback on `pendingCallbacks` and return
`-1`. -/
def visibilityAwareRAF {Cb : Type} (cb : Cb) (s : Sys Cb) : Int × Sys Cb :=
  if s.isVisible then
    (Int.ofNat s.nextId,
      { s with nextId := s.nextId + 1,
               scheduled := s.scheduled ++ [(s.nextId, cb)],
               rafIds := s.rafIds ++ [s.nextId] })
  else
    (-1, { s with pendingCallbacks := s.pendingCallbacks ++ [cb] })

/-- `callbacks.forEach((cb) => visibilityAwareRAF(cb))`
(`threejs-app.tsx:153`): forward each callback in order, threading the
state. -/
def replayAll {Cb : Type} (cbs : List Cb) (s : Sys Cb) : Sys Cb :=
  cbs.foldl (fun st cb => (visibilityAwareRAF cb st).2) s

/-- `setVisible` (`threejs-app.tsx:147-155`): store the flag; when it is set
and callbacks are pending, empty the store and forward every stored callback
through `visibilityAwareRAF`. -/
def setVisible {Cb : Type} (visible : Bool) (s : Sys Cb) : Sys Cb :=
  let s1 := { s with isVisible := visible }
  if visible = true ∧ 0 < s1.pendingCallbacks.length then
    replayAll s1.pendingCallbacks { s1 with pendingCallbacks := [] }
  else s1

/-- `cleanup` (`threejs-app.tsx:157-161`): cancel every id in `rafIds`, then
empty `rafIds` and `pendingCallbacks`. -/
def cleanup {Cb : Type} (s : Sys Cb) : Sys Cb :=
  { s with cancelled := s.cancelled ++ s.rafIds,
           rafIds := [], pendingCallbacks := [] }

/-- The controller's interface, for reasoning about arbitrary call
sequences. -/
inductive Op (Cb : Type) where
  | schedule (cb : Cb)
  | setVisible (visible : Bool)
  | cleanup

/-- One controller call. -/
def step {Cb : Type} : Op Cb → Sys Cb → Sys Cb
  | Op.schedule cb, s => (visibilityAwareRAF cb s).2
  | Op.setVisible v, s => setVisible v s
  | Op.cleanup, s => cleanup s

/-- A call sequence on a fresh controller. -/
def run {Cb : Type} (ops : List (Op Cb)) : Sys Cb :=
  ops.foldl (fun s op => step op s) (initSys Cb)

/-- The scene effect of `ThreeJSApp` (`threejs-app.tsx:275-293`) as far as
the controller is concerned: on input change (and on unmount, via the
returned disposer) the previous controller — when one exists,
`animControllerRef.current?.cleanup()` — is cleaned up, and a fresh
controller replaces it. -/
def effectNewController {Cb : Type} (old : Option (Sys Cb)) :
    Option (Sys Cb) × Sys Cb :=
  (old.map cleanup, initSys Cb)

/-- Error state right after the scene effect body starts: `setError(null)`
(`threejs-app.tsx:282`). -/
def effectErrorAfterStart : Option String := none

/-- Error state once `executeThreeCode(...)` settles
(`threejs-app.tsx:284-290`): a resolved promise leaves the error cleared,
and `.catch((e) => setError(e instanceof Error ? e.message : "Unknown error"))`
maps a rejection (an `Error` carrying a message, or any other thrown value)
to the stored message. -/
def effectErrorAfterResolve (outcome : Except (Option String) Unit) :
    Option String :=
  match outcome with
  | Except.ok _ => none
  | Except.error (some msg) => some msg
  | Except.error none => some "Unknown error"

-- =============================================================================
-- Host context and the wrapper reducer (mcp-app-wrapper.tsx)
-- =============================================================================

/-- The `safeAreaInsets` object the component reads
(`threejs-app.tsx:218-224`). -/
structure SafeAreaInsets where
  top : Nat
  right : Nat
  bottom : Nat
  left : Nat
  deriving DecidableEq

/-- The fields of `McpUiHostContext` this code touches (display mode,
available display modes, safe-area insets) plus the glossary's theme and
locale; every field is optional, `none` meaning the property is absent. -/
structure HostContext where
  displayMode : Option String
  availableDisplayModes : Option (List String)
  safeAreaInsets : Option SafeAreaInsets
  theme : Option String
  locale : Option String
  deriving DecidableEq

/-- The host context with no properties, i.e. what `{...prev}` spreads when
`prev` is `null`. -/
def emptyHostContext : HostContext :=
  { displayMode := none, availableDisplayModes := none,
    safeAreaInsets := none, theme := none, locale := none }

/-- Object-spread on one property: the second operand's property wins when
present, otherwise the first's survives. -/
def spreadField {β : Type} (prev p : Option β) : Option β :=
  match p with
  | some v => some v
  | none => prev

/-- `{ ...prev, ...params }` (`mcp-app-wrapper.tsx:70`), field by field. -/
def spreadHostContext (prev p : HostContext) : HostContext :=
  { displayMode := spreadField prev.displayMode p.displayMode,
    availableDisplayModes :=
      spreadField prev.availableDisplayModes p.availableDisplayModes,
    safeAreaInsets := spreadField prev.safeAreaInsets p.safeAreaInsets,
    theme := spreadField prev.theme p.theme,
    locale := spreadField prev.locale p.locale }

/-- The four `useState` cells of `McpAppWrapper`
(`mcp-app-wrapper.tsx:41-49`); `α` is the type of tool-input arguments
(`Record<string, unknown>` in the source) and `ρ` the type of
`CallToolResult`, both opaque here.  `toolInputsPart` embeds the source's
`toolInputsPartial` cell. -/
structure WrapperState (α ρ : Type) where
  toolInputs : Option α
  toolInputsPart : Option α
  toolResult : Option ρ
  hostContext : Option HostContext

/-- The wrapper before any event: every cell starts at `null`. -/
def initWrapperState (α ρ : Type) : WrapperState α ρ :=
  { toolInputs := none, toolInputsPart := none,
    toolResult := none, hostContext := none }

/-- The bridge events the wrapper subscribes to
(`mcp-app-wrapper.tsx:56-71`); `toolInputPart` embeds the source's
`ontoolinputpartial` event. -/
inductive WEvent (α ρ : Type) where
  | toolInput (args : α)
  | toolInputPart (args : α)
  | toolResult (res : ρ)
  | hostContextChanged (params : HostContext)

/-- The wrapper's event handlers (`mcp-app-wrapper.tsx:56-71`): a complete
tool input stores the arguments and nulls the streamed cell; a streamed
(partial) input overwrites the streamed cell only; a tool result is stored;
a host-context change spreads the event over the previous context. -/
def stepEvent {α ρ : Type} : WEvent α ρ → WrapperState α ρ → WrapperState α ρ
  | WEvent.toolInput a, s => { s with toolInputs := some a, toolInputsPart := none }
  | WEvent.toolInputPart a, s => { s with toolInputsPart := some a }
  | WEvent.toolResult r, s => { s with toolResult := some r }
  | WEvent.hostContextChanged p, s =>
    { s with hostContext := some (spreadHostContext (s.hostContext.getD emptyHostContext) p) }

/-- A sequence of bridge events applied in order. -/
def runEvents {α ρ : Type} (es : List (WEvent α ρ)) (s : WrapperState α ρ) :
    WrapperState α ρ :=
  es.foldl (fun st e => stepEvent e st) s

/-- What `McpAppWrapper` returns (`mcp-app-wrapper.tsx:88-104`): the
blocking error `div`, the connecting placeholder, or the `ThreeJSApp` view
with the four state cells as props. -/
inductive WrapperRendered (α ρ : Type) where
  | errorDiv (text : String)
  | loading
  | view (toolInputs toolInputsPart : Option α) (toolResult : Option ρ)
      (hostContext : Option HostContext)

/-- The wrapper's render: `if (error) return <div class=error>Error: ...` ,
then `if (!app) return Connecting...`, else the view
(`mcp-app-wrapper.tsx:88-104`).  `connError` is `useApp`'s error (its
message), `app` whether the connection produced an app. -/
def renderWrapper {α ρ : Type} (connError : Option String) (app : Bool)
    (s : WrapperState α ρ) : WrapperRendered α ρ :=
  match connError with
  | some msg => WrapperRendered.errorDiv ("Error: " ++ msg)
  | none =>
    if app then
      WrapperRendered.view s.toolInputs s.toolInputsPart s.toolResult s.hostContext
    else
      WrapperRendered.loading

-- =============================================================================
-- Fullscreen toggle (threejs-app.tsx:240-250)
-- =============================================================================

/-- The `currentDisplayMode` state cell's type, the union
`"inline" | "fullscreen"`. -/
inductive DisplayMode where
  | inline
  | fullscreen
  deriving DecidableEq

/-- The string a display mode is compared and transmitted as. -/
def DisplayMode.toStr : DisplayMode → String
  | DisplayMode.inline => "inline"
  | DisplayMode.fullscreen => "fullscreen"

/-- `const newMode = isFullscreen ? "inline" : "fullscreen";` where
`isFullscreen` is `currentDisplayMode === "fullscreen"`
(`threejs-app.tsx:228,241`). -/
def requestedMode (cur : DisplayMode) : DisplayMode :=
  if cur = DisplayMode.fullscreen then DisplayMode.inline else DisplayMode.fullscreen

/-- `toggleFullscreen` (`threejs-app.tsx:240-250`): request the opposite
mode from the host; store `result.mode` only when it equals the requested
mode; a rejected request is caught and ignored.  `resp` is the host's
answer: the `mode` string of the response, or a rejection. -/
def toggleFullscreen (cur : DisplayMode) (resp : Except Unit String) :
    DisplayMode :=
  let newMode := requestedMode cur
  match resp with
  | Except.ok m => if m = newMode.toStr then newMode else cur
  | Except.error _ => cur

-- =============================================================================
-- Helper lemmas
-- =============================================================================

/-- The default demo code is a non-empty string, so JavaScript `||` never
falls through it. -/
theorem default_code_ne_empty : DEFAULT_THREEJS_CODE ≠ "" := by decide

/-- `renderCode` never produces the empty string: `||` replaces an absent or
empty complete code by the (non-empty) default. -/
theorem renderCode_ne_empty (ti : Option ToolInput) : renderCode ti ≠ "" := by
  unfold renderCode
  cases hti : ti.bind ToolInput.code with
  | none => exact default_code_ne_empty
  | some c =>
    by_cases hc : c = ""
    · simp [hc]
      exact default_code_ne_empty
    · simp [hc]

/-- Replaying a list of callbacks while visible forwards each of them, in
order, to the frame-scheduling primitive, pairing them with the next fresh
ids; the flag, the pending store and the cancelled list are untouched. -/
theorem replayAll_spec {Cb : Type} (cbs : List Cb) (s : Sys Cb)
    (h : s.isVisible = true) :
    (replayAll cbs s).isVisible = true ∧
    (replayAll cbs s).pendingCallbacks = s.pendingCallbacks ∧
    (replayAll cbs s).scheduled =
      s.scheduled ++ List.zip (List.range' s.nextId cbs.length 1) cbs ∧
    (replayAll cbs s).rafIds = s.rafIds ++ List.range' s.nextId cbs.length 1 ∧
    (replayAll cbs s).cancelled = s.cancelled ∧
    (replayAll cbs s).nextId = s.nextId + cbs.length := by
  induction cbs generalizing s with
  | nil => simp [replayAll, h]
  | cons cb cbs ih =>
    have hs : (visibilityAwareRAF cb s).2 =
        { s with nextId := s.nextId + 1,
                 scheduled := s.scheduled ++ [(s.nextId, cb)],
                 rafIds := s.rafIds ++ [s.nextId] } := by
      simp [visibilityAwareRAF, h]
    have unf : replayAll (cb :: cbs) s = replayAll cbs (visibilityAwareRAF cb s).2 := rfl
    rw [unf, hs]
    obtain ⟨v, pc, sch, raf, can, nid⟩ :=
      ih { s with nextId := s.nextId + 1,
                  scheduled := s.scheduled ++ [(s.nextId, cb)],
                  rafIds := s.rafIds ++ [s.nextId] } h
    refine ⟨v, by simpa using pc, ?_, ?_, by simpa using can, ?_⟩
    · rw [sch]
      simp [List.range'_succ, List.zip_cons_cons, List.append_assoc]
    · rw [raf]
      simp [List.range'_succ, List.append_assoc]
    · rw [nid]
      simp
      omega

/-- Every frame request ever issued is accounted for: its id is still in the
controller's `rafIds` record, or it was already cancelled. -/
def goodIds {Cb : Type} (s : Sys Cb) : Prop :=
  ∀ i cb, (i, cb) ∈ s.scheduled → i ∈ s.rafIds ∨ i ∈ s.cancelled

/-- Scheduling one callback preserves the accounting invariant. -/
theorem visibilityAwareRAF_goodIds {Cb : Type} (cb : Cb) (s : Sys Cb)
    (h : goodIds s) : goodIds (visibilityAwareRAF cb s).2 := by
  by_cases hv : s.isVisible = true
  · intro i c hm
    simp [visibilityAwareRAF, hv] at hm ⊢
    rcases hm with hm | hm
    · rcases h i c hm with hi | hi
      · exact Or.inl (Or.inl hi)
      · exact Or.inr hi
    · exact Or.inl (Or.inr hm.1)
  · intro i c hm
    simp [visibilityAwareRAF, hv] at hm ⊢
    exact h i c hm

/-- Replaying pending callbacks preserves the accounting invariant. -/
theorem replayAll_goodIds {Cb : Type} (cbs : List Cb) (s : Sys Cb)
    (h : goodIds s) : goodIds (replayAll cbs s) := by
  induction cbs generalizing s with
  | nil => exact h
  | cons cb cbs ih =>
    have unf : replayAll (cb :: cbs) s = replayAll cbs (visibilityAwareRAF cb s).2 := rfl
    rw [unf]
    exact ih _ (visibilityAwareRAF_goodIds cb s h)

/-- Every controller call preserves the accounting invariant. -/
theorem step_goodIds {Cb : Type} (op : Op Cb) (s : Sys Cb)
    (h : goodIds s) : goodIds (step op s) := by
  cases op with
  | schedule cb => exact visibilityAwareRAF_goodIds cb s h
  | setVisible v =>
    show goodIds (setVisible v s)
    by_cases hcond : v = true ∧ 0 < s.pendingCallbacks.length
    · have hset : setVisible v s =
          replayAll s.pendingCallbacks { s with isVisible := v, pendingCallbacks := [] } := by
        simp [setVisible, hcond]
      rw [hset]
      exact replayAll_goodIds _ _ (fun i c hm => h i c hm)
    · have hset : setVisible v s = { s with isVisible := v } := by
        simp [setVisible]
        intro hv hlen
        exact absurd ⟨hv, hlen⟩ hcond
      rw [hset]
      exact fun i c hm => h i c hm
  | cleanup =>
    intro i c hm
    simp [step, cleanup] at hm ⊢
    rcases h i c hm with hi | hi
    · exact Or.inr hi
    · exact Or.inl hi

/-- The accounting invariant holds after any call sequence on a fresh
controller. -/
theorem run_goodIds {Cb : Type} (ops : List (Op Cb)) : goodIds (run ops) := by
  have gen : ∀ (l : List (Op Cb)) (s : Sys Cb), goodIds s →
      goodIds (l.foldl (fun st op => step op st) s) := by
    intro l
    induction l with
    | nil => intro s hs; exact hs
    | cons op l ih =>
      intro s hs
      exact ih _ (step_goodIds op s hs)
  refine gen ops (initSys Cb) ?_
  intro i c hm
  simp [initSys] at hm

-- =============================================================================
-- Claim theorems
-- =============================================================================

/-- C2: a `setVisible` call that transitions the visibility flag from
`false` to `true` forwards every callback stored while invisible to the
frame-scheduling primitive, in the order they were stored (FIFO, each paired
with the next fresh id), and leaves the pending store empty afterwards. -/
theorem C2_setVisible_replays_fifo {Cb : Type} (s : Sys Cb)
    (_h : s.isVisible = false) :
    (setVisible true s).pendingCallbacks = [] ∧
    List.map Prod.snd (setVisible true s).scheduled =
      List.map Prod.snd s.scheduled ++ s.pendingCallbacks ∧
    (setVisible true s).scheduled =
      s.scheduled ++
        List.zip (List.range' s.nextId s.pendingCallbacks.length 1)
          s.pendingCallbacks := by
  by_cases hpc : s.pendingCallbacks = []
  · simp [setVisible, hpc]
  · have hset : setVisible true s =
        replayAll s.pendingCallbacks { s with isVisible := true, pendingCallbacks := [] } := by
      simp [setVisible, List.length_pos, hpc]
    rw [hset]
    obtain ⟨v, pc, sch, raf, can, nid⟩ :=
      replayAll_spec s.pendingCallbacks
        { s with isVisible := true, pendingCallbacks := [] } rfl
    refine ⟨pc, ?_, ?_⟩
    · rw [sch, List.map_append, List.map_snd_zip _ _ (by simp [List.length_range'])]
    · rw [sch]

/-- C3: `visibilityAwareRAF(callback)` forwards the callback immediately to
the frame-scheduling primitive when the visibility flag is `true` (recording
the returned id and handing it back), and when the flag is `false` appends
the callback to the pending store without invoking the primitive (the
request trace and the id counter are untouched, `-1` is returned). -/
theorem C3_schedule_forward_or_queue {Cb : Type} (cb : Cb) (s : Sys Cb) :
    (s.isVisible = true →
      (visibilityAwareRAF cb s).2.scheduled = s.scheduled ++ [(s.nextId, cb)] ∧
      (visibilityAwareRAF cb s).2.rafIds = s.rafIds ++ [s.nextId] ∧
      (visibilityAwareRAF cb s).2.pendingCallbacks = s.pendingCallbacks ∧
      (visibilityAwareRAF cb s).1 = Int.ofNat s.nextId) ∧
    (s.isVisible = false →
      (visibilityAwareRAF cb s).2.scheduled = s.scheduled ∧
      (visibilityAwareRAF cb s).2.nextId = s.nextId ∧
      (visibilityAwareRAF cb s).2.rafIds = s.rafIds ∧
      (visibilityAwareRAF cb s).2.pendingCallbacks = s.pendingCallbacks ++ [cb] ∧
      (visibilityAwareRAF cb s).1 = -1) := by
  constructor <;> intro h <;> simp [visibilityAwareRAF, h]

/-- C4: after any call sequence on a fresh controller, `cleanup` empties the
issued-id list and the pending-callback store, every id still recorded is
cancelled, and — via the accounting invariant — every frame request ever
issued to the primitive is cancelled; on input change (and unmount) the
component runs exactly this cleanup on the previous controller before
replacing it. -/
theorem C4_cleanup_cancels_everything {Cb : Type} (ops : List (Op Cb)) :
    (cleanup (run ops)).rafIds = [] ∧
    (cleanup (run ops)).pendingCallbacks = [] ∧
    (∀ i, i ∈ (run ops).rafIds → i ∈ (cleanup (run ops)).cancelled) ∧
    (∀ i cb, (i, cb) ∈ (run ops).scheduled → i ∈ (cleanup (run ops)).cancelled) ∧
    (∀ old : Option (Sys Cb), effectNewController old = (old.map cleanup, initSys Cb)) := by
  refine ⟨rfl, rfl, ?_, ?_, fun old => rfl⟩
  · intro i hi
    simp [cleanup]
    exact Or.inr hi
  · intro i cb hm
    simp [cleanup]
    rcases run_goodIds ops i cb hm with hi | hi
    · exact Or.inr hi
    · exact Or.inl hi

/-- Witness for C2 at a concrete invisible state holding two queued
callbacks. -/
theorem C2_witness :
    (setVisible true ({ isVisible := false, pendingCallbacks := [7, 8], rafIds := [], nextId := 5, scheduled := [], cancelled := [] } : Sys Nat)).pendingCallbacks = [] ∧
    List.map Prod.snd (setVisible true ({ isVisible := false, pendingCallbacks := [7, 8], rafIds := [], nextId := 5, scheduled := [], cancelled := [] } : Sys Nat)).scheduled = [7, 8] := by
  have h := C2_setVisible_replays_fifo ({ isVisible := false, pendingCallbacks := [7, 8], rafIds := [], nextId := 5, scheduled := [], cancelled := [] } : Sys Nat) rfl
  exact ⟨h.1, by simpa using h.2.1⟩

/-- Witness for C3, applied at a visible and at an invisible concrete
state. -/
theorem C3_witness :
    (visibilityAwareRAF (3 : Nat) ({ isVisible := true, pendingCallbacks := [], rafIds := [], nextId := 0, scheduled := [], cancelled := [] } : Sys Nat)).2.scheduled = [(0, 3)] ∧
    (visibilityAwareRAF (3 : Nat) ({ isVisible := false, pendingCallbacks := [], rafIds := [], nextId := 0, scheduled := [], cancelled := [] } : Sys Nat)).2.pendingCallbacks = [3] := by
  constructor
  · have h := (C3_schedule_forward_or_queue (3 : Nat) ({ isVisible := true, pendingCallbacks := [], rafIds := [], nextId := 0, scheduled := [], cancelled := [] } : Sys Nat)).1 rfl
    simpa using h.1
  · have h := (C3_schedule_forward_or_queue (3 : Nat) ({ isVisible := false, pendingCallbacks := [], rafIds := [], nextId := 0, scheduled := [], cancelled := [] } : Sys Nat)).2 rfl
    simpa using h.2.2.2.1

/-- Witness for C4 on the one-schedule call sequence: the issued id 0 is
cancelled and nothing stays queued. -/
theorem C4_witness :
    (0 : Nat) ∈ (cleanup (run [Op.schedule (0 : Nat)])).cancelled ∧
    (cleanup (run [Op.schedule (0 : Nat)])).pendingCallbacks = [] := by
  refine ⟨?_, (C4_cleanup_cancels_everything [Op.schedule (0 : Nat)]).2.1⟩
  exact (C4_cleanup_cancels_everything [Op.schedule (0 : Nat)]).2.2.2.1 0 0 (by decide)

/-- C5: the streaming tool-input reducer stores a streamed (partial) event's
value in the streamed cell, overwriting any previous streamed value and
leaving the complete cell unchanged; a complete event stores its value in
the complete cell and nulls the streamed cell. -/
theorem C5_reducer_transitions {α ρ : Type} (s : WrapperState α ρ) (a : α) :
    ((stepEvent (WEvent.toolInputPart a) s).toolInputsPart = some a ∧
     (stepEvent (WEvent.toolInputPart a) s).toolInputs = s.toolInputs) ∧
    ((stepEvent (WEvent.toolInput a) s).toolInputs = some a ∧
     (stepEvent (WEvent.toolInput a) s).toolInputsPart = none) := by
  exact ⟨⟨rfl, rfl⟩, ⟨rfl, rfl⟩⟩

/-- Once the complete cell is set, every handler keeps it set. -/
theorem stepEvent_keeps_complete {α ρ : Type} (e : WEvent α ρ)
    (s : WrapperState α ρ) (h : s.toolInputs.isSome = true) :
    (stepEvent e s).toolInputs.isSome = true := by
  cases e <;> simp [stepEvent, h]

/-- Once the complete cell is set, any event sequence keeps it set. -/
theorem runEvents_keeps_complete {α ρ : Type} (es : List (WEvent α ρ))
    (s : WrapperState α ρ) (h : s.toolInputs.isSome = true) :
    (runEvents es s).toolInputs.isSome = true := by
  induction es generalizing s with
  | nil => exact h
  | cons e es ih => exact ih _ (stepEvent_keeps_complete e s h)

/-- C6: after a complete tool-input event, the reducer stays in the complete
state for any further event sequence — the complete cell never returns to
`null` — and a streamed (partial) event never changes the complete cell. -/
theorem C6_complete_is_terminal {α ρ : Type} (s0 : WrapperState α ρ) (a : α)
    (es : List (WEvent α ρ)) :
    (runEvents es (stepEvent (WEvent.toolInput a) s0)).toolInputs.isSome = true ∧
    ∀ (b : α) (s : WrapperState α ρ),
      (stepEvent (WEvent.toolInputPart b) s).toolInputs = s.toolInputs := by
  exact ⟨runEvents_keeps_complete es _ rfl, fun b s => rfl⟩

/-- C8: whenever the connection attempt produced an error, the wrapper
renders only the blocking error message (containing the error's message)
and never the view component, whatever the tool-input or host-context
state holds. -/
theorem C8_conn_error_blocks_view {α ρ : Type} (msg : String) (app : Bool)
    (s : WrapperState α ρ) :
    renderWrapper (some msg) app s = WrapperRendered.errorDiv ("Error: " ++ msg) ∧
    ∀ (ti tip : Option α) (tr : Option ρ) (hc : Option HostContext),
      renderWrapper (some msg) app s ≠ WrapperRendered.view ti tip tr hc := by
  refine ⟨rfl, ?_⟩
  intro ti tip tr hc hcontra
  exact WrapperRendered.noConfusion hcontra

/-- C10: a host-context-change event merges the event's fields into the
previously stored context: a field absent from the event keeps its previous
value, and a field present in the event overwrites it. -/
theorem C10_hostcontext_merges {α ρ : Type} (s : WrapperState α ρ)
    (prev p : HostContext) (h : s.hostContext = some prev) :
    (stepEvent (WEvent.hostContextChanged p) s).hostContext = some (spreadHostContext prev p) ∧
    (p.displayMode = none → (spreadHostContext prev p).displayMode = prev.displayMode) ∧
    (∀ v, p.displayMode = some v → (spreadHostContext prev p).displayMode = some v) ∧
    (p.availableDisplayModes = none →
      (spreadHostContext prev p).availableDisplayModes = prev.availableDisplayModes) ∧
    (∀ v, p.availableDisplayModes = some v →
      (spreadHostContext prev p).availableDisplayModes = some v) ∧
    (p.safeAreaInsets = none →
      (spreadHostContext prev p).safeAreaInsets = prev.safeAreaInsets) ∧
    (∀ v, p.safeAreaInsets = some v →
      (spreadHostContext prev p).safeAreaInsets = some v) ∧
    (p.theme = none → (spreadHostContext prev p).theme = prev.theme) ∧
    (∀ v, p.theme = some v → (spreadHostContext prev p).theme = some v) ∧
    (p.locale = none → (spreadHostContext prev p).locale = prev.locale) ∧
    (∀ v, p.locale = some v → (spreadHostContext prev p).locale = some v) := by
  refine ⟨by simp [stepEvent, h], ?_, ?_, ?_, ?_, ?_, ?_, ?_, ?_, ?_, ?_⟩ <;>
    first
      | (intro hp
         simp [spreadHostContext, spreadField, hp])
      | (intro v hp
         simp [spreadHostContext, spreadField, hp])

/-- Witness for C10: a change event carrying a display mode and a locale
merges into a stored context holding a display mode, available modes and a
theme — the event's fields win, the others survive. -/
theorem C10_witness :
    (stepEvent (WEvent.hostContextChanged { displayMode := some "fullscreen", availableDisplayModes := none, safeAreaInsets := none, theme := none, locale := some "en" }) ({ toolInputs := none, toolInputsPart := none, toolResult := none, hostContext := some { displayMode := some "inline", availableDisplayModes := some ["inline", "fullscreen"], safeAreaInsets := none, theme := some "light", locale := none } } : WrapperState Nat Nat)).hostContext
      = some { displayMode := some "fullscreen", availableDisplayModes := some ["inline", "fullscreen"], safeAreaInsets := none, theme := some "light", locale := some "en" } := by
  have h := C10_hostcontext_merges ({ toolInputs := none, toolInputsPart := none, toolResult := none, hostContext := some { displayMode := some "inline", availableDisplayModes := some ["inline", "fullscreen"], safeAreaInsets := none, theme := some "light", locale := none } } : WrapperState Nat Nat) { displayMode := some "inline", availableDisplayModes := some ["inline", "fullscreen"], safeAreaInsets := none, theme := some "light", locale := none } { displayMode := some "fullscreen", availableDisplayModes := none, safeAreaInsets := none, theme := none, locale := some "en" } rfl
  rw [h.1]
  rfl

/-- C1 counterexample: with the complete tool input `{ code: "" }` a
complete code value is present (the empty string), yet the render falls back
to the default demo code instead of that value, because the source uses
JavaScript `||`, for which the empty string is falsy. -/
theorem C1_counterexample :
    (some ({ code := some "", height := none } : ToolInput)).bind ToolInput.code = some "" ∧
    displayedCode (render (some { code := some "", height := none }) none none) = some DEFAULT_THREEJS_CODE ∧
    displayedCode (render (some { code := some "", height := none }) none none) ≠ some "" := by
  refine ⟨rfl, rfl, ?_⟩
  intro hcontra
  exact default_code_ne_empty (Option.some.inj (rfl.trans hcontra))

/-- C1 (amended): the height is the complete input's height when present,
else the partial input's height, else 400; a complete, non-empty code value
is authoritative for the rendered canvas; while streaming (no complete
input, a partial input present) the shimmer shows the partial code; and
whenever the complete code is absent or empty and the view is not streaming,
the default demo code is rendered — the partial code is never executed. -/
theorem C1_render_fallback_amended (ti tip : Option ToolInput) :
    (∀ h, ti.bind ToolInput.height = some h → renderHeight ti tip = h) ∧
    (ti.bind ToolInput.height = none →
      ∀ h, tip.bind ToolInput.height = some h → renderHeight ti tip = h) ∧
    (ti.bind ToolInput.height = none → tip.bind ToolInput.height = none →
      renderHeight ti tip = 400) ∧
    (∀ er c, ti.bind ToolInput.code = some c → c ≠ "" →
      render ti tip er = Rendered.canvas (renderHeight ti tip) c er) ∧
    (∀ er, ti = none → tip.isSome = true →
      render ti tip er = Rendered.shimmer (renderHeight ti tip) (tip.bind ToolInput.code)) ∧
    (∀ er, (ti.bind ToolInput.code = none ∨ ti.bind ToolInput.code = some "") →
      (ti.isSome = true ∨ tip = none) →
      render ti tip er = Rendered.canvas (renderHeight ti tip) DEFAULT_THREEJS_CODE er) := by
  refine ⟨?_, ?_, ?_, ?_, ?_, ?_⟩
  · intro h hh
    simp [renderHeight, hh]
  · intro hn h hh
    simp [renderHeight, hn, hh]
  · intro hn hn'
    simp [renderHeight, hn, hn']
  · intro er c hc hne
    cases ti with
    | none => simp at hc
    | some t =>
      have hc' : t.code = some c := by simpa using hc
      simp [render, isStreaming, renderCode, hc', hne]
  · intro er hn hs
    subst hn
    simp [render, isStreaming, hs]
  · intro er hcode hns
    have hstream : isStreaming ti tip = false := by
      rcases hns with hti | htip
      · simp [isStreaming, Option.isNone_iff_eq_none]
        intro hn
        rw [hn] at hti
        simp at hti
      · simp [isStreaming, htip]
    have hdef : renderCode ti = DEFAULT_THREEJS_CODE := by
      rcases hcode with hc | hc <;> simp [renderCode, hc]
    simp [render, hstream, hdef, default_code_ne_empty]

/-- Witness for C1 (amended): a complete input with non-empty code and a
height renders that code at that height on the canvas; with no complete
input, a partial height drives the fallback height. -/
theorem C1_witness :
    render (some { code := some "const x = 1;", height := some 250 }) none none = Rendered.canvas 250 "const x = 1;" none ∧
    renderHeight none (some { code := none, height := some 120 }) = 120 := by
  constructor
  · have h := (C1_render_fallback_amended (some { code := some "const x = 1;", height := some 250 }) none).2.2.2.1 none "const x = 1;" rfl (by simp)
    exact h
  · exact (C1_render_fallback_amended none (some { code := none, height := some 120 })).2.1 rfl 120 rfl

/-- C7: when the view is not streaming it renders the canvas (with the
fullscreen control) whatever the error state is, showing the error state as
the overlay; a scene-execution failure is caught and only sets that error
state (an `Error`'s message, or the fallback text), a successful execution
leaves it clear, and every effect re-run triggered by new input starts by
clearing the error before executing the replacement scene. -/
theorem C7_scene_error_nonblocking (ti tip : Option ToolInput)
    (er : Option String) (h : isStreaming ti tip = false) :
    render ti tip er = Rendered.canvas (renderHeight ti tip) (renderCode ti) er ∧
    (∀ msg, effectErrorAfterResolve (Except.error (some msg)) = some msg) ∧
    effectErrorAfterResolve (Except.error none) = some "Unknown error" ∧
    effectErrorAfterResolve (Except.ok ()) = none ∧
    effectErrorAfterStart = none := by
  refine ⟨?_, fun msg => rfl, rfl, rfl, rfl⟩
  simp [render, h, renderCode_ne_empty ti]

/-- Witness for C7: with no input at all and a failed scene, the canvas is
still rendered with the default code and the message appears as the
overlay. -/
theorem C7_witness :
    render none none (some "boom") = Rendered.canvas 400 DEFAULT_THREEJS_CODE (some "boom") := by
  exact (C7_scene_error_nonblocking none none (some "boom") rfl).1

/-- C9: the fullscreen toggle changes the stored display mode exactly when
the host's `requestDisplayMode` response resolves with the requested mode;
a rejection or a response carrying any other mode leaves the stored mode
unchanged. -/
theorem C9_toggle_only_on_exact_mode (cur : DisplayMode)
    (resp : Except Unit String) :
    (resp = Except.ok (requestedMode cur).toStr → toggleFullscreen cur resp = requestedMode cur) ∧
    (resp ≠ Except.ok (requestedMode cur).toStr → toggleFullscreen cur resp = cur) ∧
    (∀ e, resp = Except.error e → toggleFullscreen cur resp = cur) := by
  refine ⟨?_, ?_, ?_⟩
  · intro h
    subst h
    simp [toggleFullscreen]
  · intro h
    cases resp with
    | error e => simp [toggleFullscreen]
    | ok m =>
      have hm : ¬(m = (requestedMode cur).toStr) := fun hc => h (by rw [hc])
      simp [toggleFullscreen, hm]
  · intro e he
    subst he
    simp [toggleFullscreen]

/-- Witness for C9: from inline, an accepted fullscreen response switches
the stored mode, a rejected request leaves it inline. -/
theorem C9_witness :
    toggleFullscreen DisplayMode.inline (Except.ok "fullscreen") = DisplayMode.fullscreen ∧
    toggleFullscreen DisplayMode.inline (Except.error ()) = DisplayMode.inline := by
  constructor
  · exact (C9_toggle_only_on_exact_mode DisplayMode.inline (Except.ok "fullscreen")).1 rfl
  · exact (C9_toggle_only_on_exact_mode DisplayMode.inline (Except.error ())).2.2 () rfl

/-- Witness for C8: a concrete connection error renders the blocking error
message, with the connected flag set and a fresh wrapper state. -/
theorem C8_witness :
    renderWrapper (some "connection refused") true (initWrapperState Nat Nat) = WrapperRendered.errorDiv "Error: connection refused" ∧
    renderWrapper (some "connection refused") true (initWrapperState Nat Nat) ≠ WrapperRendered.view none none none none := by
  constructor
  · exact (C8_conn_error_blocks_view "connection refused" true (initWrapperState Nat Nat)).1
  · exact (C8_conn_error_blocks_view "connection refused" true (initWrapperState Nat Nat)).2 none none none none
